import Mathlib

/-
  Shallow embedding of the UWS job lifecycle engine of lsst-sqre/ivoa-cutout-poc.

  Sources embedded here:
    - src/vocutouts/uws/models.py      (ExecutionPhase, ACTIVE_PHASES, JobError,
                                        JobResult, Job, JobUpdate and its validator)
    - src/vocutouts/uws/service.py     (JobService: get, get_first_result, delete,
                                        update, start)
    - src/vocutouts/uws/exceptions.py  (error taxonomy, TaskError.from_callback)
    - src/vocutouts/uws/utils.py       (isodatetime, parse_isodatetime)
    - src/vocutouts/policy.py          (ImageCutoutPolicy)

  Conventions of the embedding:
    - Python `datetime` instants are modelled as integers (seconds since an
      arbitrary epoch) wherever only ordering/equality matters; the structured
      `PyDatetime` type is used for the ISO-format utilities where the field
      structure matters.
    - Python `timedelta` durations are modelled as an integer number of seconds
      (the repository only ever stores whole-second durations: configuration
      and the wire format use integer seconds).
    - Python exceptions become `Except Err` / `Option` results.
    - Python truthiness of optional values is modelled explicitly per type:
      `None` is falsy; a `datetime` is always truthy; a `timedelta` is truthy
      iff nonzero; a list is truthy iff nonempty; an `int` is truthy iff
      nonzero; an enum member is always truthy.
    - The frontend job store (src/vocutouts/uws/storage.py) and the UWS
      configuration (src/vocutouts/uws/config.py) are not part of the provided
      sources; they are modelled from the spec where needed, and each such
      definition is marked `Modelled from the spec:`.
-/

namespace Vocutouts

/-- Execution phases for a UWS job (uws/models.py, class ExecutionPhase). -/
inductive ExecutionPhase where
  | PENDING
  | QUEUED
  | EXECUTING
  | COMPLETED
  | ERROR
  | ABORTED
  | UNKNOWN
  | HELD
  | SUSPENDED
  | ARCHIVED
deriving DecidableEq, Repr

/-- Phases in which the job is active and can be waited on
(uws/models.py, ACTIVE_PHASES). -/
def ACTIVE_PHASES : List ExecutionPhase :=
  [ExecutionPhase.PENDING, ExecutionPhase.QUEUED, ExecutionPhase.EXECUTING]

/-- Failure information about a job (uws/models.py, class JobError). -/
structure JobError where
  error_code : String
  message : String
  detail : Option String
deriving DecidableEq, Repr

/-- A single result from the job (uws/models.py, class JobResult). -/
structure JobResult where
  result_id : String
  url : String
  size : Option Int
  mime_type : Option String
deriving DecidableEq, Repr

/-- A single UWS job (uws/models.py, class Job, including the JobDescription
fields it inherits).  `P` is the caller-supplied parameter model (the
`Generic[T]` parameter in the source).  Instants are integers, durations are
integer seconds. -/
structure Job (P : Type) where
  job_id : String
  owner : String
  phase : ExecutionPhase
  run_id : Option String
  creation_time : Int
  message_id : Option String
  start_time : Option Int
  end_time : Option Int
  destruction_time : Option Int
  execution_duration : Option Int
  quote : Option Int
  error : Option JobError
  parameters : P
  results : Option (List JobResult)
deriving DecidableEq, Repr

/-- Requested update to a job (uws/models.py, class JobUpdate).  Both fields
are optional; `execution_duration` is a duration in seconds. -/
structure JobUpdate where
  destruction_time : Option Int
  execution_duration : Option Int
deriving DecidableEq, Repr

/-- The work-queue message returned by the generic policy dispatch
(`dramatiq.Message` as seen by JobService.start: only its `message_id`
attribute is consumed). -/
structure Message where
  message_id : String
deriving DecidableEq, Repr

/-- Modelled from the spec: the UWS configuration options consumed by the
service layer (src/vocutouts/uws/config.py is not among the provided sources;
fields and meanings follow spec section 6, Configuration options).  All values
are in seconds. -/
structure UWSConfig where
  execution_duration : Int
  lifetime : Int
  wait_timeout : Int
  sync_timeout : Int
deriving DecidableEq, Repr

/-- The error taxonomy raised by the service layer (uws/exceptions.py).
Each constructor carries the data the corresponding exception carries. -/
inductive Err where
  | permissionDenied (message : String)
  | unknownJob (job_id : String)
  | invalidPhase (message : String)
  | syncTimeout (message : String)
  | taskError (error_code : String) (message : String) (detail : Option String)
deriving DecidableEq, Repr

/-! ## Python truthiness helpers -/

/-- Truthiness of an `Optional[timedelta]`: `None` is falsy and a `timedelta`
is truthy iff it is nonzero. -/
def durTruthy : Option Int → Bool
  | none => false
  | some d => d ≠ 0

/-- Truthiness of an `Optional[datetime]`: a `datetime` object is always
truthy, so this is just presence. -/
def timeTruthy : Option Int → Bool
  | none => false
  | some _ => true

/-- Truthiness of an `Optional[int]` (the `wait` argument): `None` and `0`
are falsy. -/
def intTruthy : Option Int → Bool
  | none => false
  | some n => n ≠ 0

/-- Truthiness of an `Optional[list]` (the `results` field): `None` and the
empty list are falsy. -/
def listTruthy {α : Type} : Option (List α) → Bool
  | none => false
  | some xs => !xs.isEmpty

/-! ## Job store model

The frontend job store lives in src/vocutouts/uws/storage.py, which is not
among the provided sources.  The service layer only needs `get` (a read) plus
the fact that each mutating operation it issues is observable; mutations are
therefore recorded as an explicit effect trace, and an interpretation of that
trace over a stored state is given so that "the stored job is unchanged" can
be stated. -/

/-- The persisted state: a finite association of job ids to jobs. -/
def StoreState (P : Type) : Type := List (String × Job P)

/-- Modelled from the spec: `store.get(job_id)` fails with UNKNOWN_JOB when no
row exists for the id and otherwise returns the stored job (spec section 4.2). -/
def storeGet {P : Type} (store : StoreState P) (job_id : String) :
    Except Err (Job P) :=
  match store.lookup job_id with
  | some job => Except.ok job
  | none => Except.error (Err.unknownJob job_id)

/-- A mutation issued by the service layer against the store or the work
queue.  `dispatched` records a call to `policy.dispatch`; the others record
the store mutations of spec section 4.2 that JobService uses. -/
inductive Effect where
  | dispatched (job_id : String)
  | markedQueued (job_id : String) (message_id : String)
  | deleted (job_id : String)
  | updatedDestruction (job_id : String) (destruction : Int)
  | updatedExecutionDuration (job_id : String) (duration : Int)
deriving DecidableEq, Repr

/-- Modelled from the spec: interpretation of one store mutation over the
persisted state (spec section 4.2: `delete` removes the row;
`mark_queued` sets phase QUEUED and the message id; the two update operations
are single-field updates).  `dispatched` touches only the work queue, not the
store. -/
def applyEffect {P : Type} (store : StoreState P) : Effect → StoreState P
  | Effect.dispatched _ => store
  | Effect.markedQueued job_id mid =>
      store.map fun p =>
        if p.1 = job_id then
          (p.1, { p.2 with phase := ExecutionPhase.QUEUED, message_id := some mid })
        else p
  | Effect.deleted job_id => store.filter fun p => p.1 ≠ job_id
  | Effect.updatedDestruction job_id t =>
      store.map fun p =>
        if p.1 = job_id then (p.1, { p.2 with destruction_time := some t }) else p
  | Effect.updatedExecutionDuration job_id d =>
      store.map fun p =>
        if p.1 = job_id then (p.1, { p.2 with execution_duration := some d }) else p

/-- Interpretation of a whole effect trace, first effect applied first. -/
def applyEffects {P : Type} (store : StoreState P) (effs : List Effect) :
    StoreState P :=
  effs.foldl applyEffect store

/-! ## Service layer (uws/service.py, class JobService)

Mutating operations return their result together with the trace of mutations
they issued (store mutations and policy dispatches), in order.  A raise in the
Python code before a mutation therefore shows up as an error paired with an
empty trace. -/

/-- Clamping of the `wait` argument performed by JobService.get
(service.py lines 202-203): a negative wait or a wait above the configured
maximum is replaced by `config.wait_timeout`. -/
def clampWait (cfg : UWSConfig) (wait : Int) : Int :=
  if wait < 0 ∨ wait > cfg.wait_timeout then cfg.wait_timeout else wait

/-- Environment of one JobService.get call: the clock value when the deadline
is computed, the sequence of job snapshots returned by the re-reads inside the
polling loop, the clock value observed right after each re-read, and an upper
bound on the number of loop iterations.  The exponential-backoff arithmetic of
the source (delay starting at 0.1s, times 1.5, clamped at the deadline) only
determines at which instants the re-reads happen; it is absorbed into
`readTime`, and `fuel` bounds the iterations (the Python loop terminates
because each iteration advances the clock by at least the current delay). -/
structure GetEnv (P : Type) where
  now : Int
  reread : Nat → Job P
  readTime : Nat → Int
  fuel : Nat

/-- The polling loop of JobService.get (service.py lines 218-227): while the
job is not done, re-read it; stop, keeping the freshly read snapshot, once the
clock has reached the deadline. -/
def pollLoop {P : Type} (notDone : Job P → Bool) (env : GetEnv P)
    (deadline : Int) : Nat → Nat → Job P → Job P
  | 0, _, job => job
  | fuel + 1, i, job =>
    if notDone job then
      let j := env.reread i
      if env.readTime i ≥ deadline then j
      else pollLoop notDone env deadline fuel (i + 1) j
    else job

/-- Rewriting of result URLs to signed URLs at the end of JobService.get
(service.py lines 230-234): applied only when `results` is truthy (present and
nonempty). -/
def signResults {P : Type} (sign : String → Option String → String)
    (job : Job P) : Job P :=
  if listTruthy job.results then
    { job with
      results := some ((job.results.getD []).map fun r =>
        { r with url := sign r.url r.mime_type }) }
  else job

/-- JobService.get (service.py lines 139-236).  `sign` is the signed-URL
minter.  Long-polling happens only when `wait` is truthy and the current phase
is active; the wait is clamped, the baseline phase defaults to the current
phase (enum members are always truthy), and the stop criterion depends on
`wait_for_completion`. -/
def JobService.get {P : Type} (cfg : UWSConfig)
    (sign : String → Option String → String) (store : StoreState P)
    (user : String) (job_id : String) (wait : Option Int)
    (wait_phase : Option ExecutionPhase) (wait_for_completion : Bool)
    (env : GetEnv P) : Except Err (Job P) :=
  match storeGet store job_id with
  | Except.error e => Except.error e
  | Except.ok job =>
    if job.owner ≠ user then
      Except.error
        (Err.permissionDenied ("Access to job " ++ job_id ++ " denied"))
    else
      let job :=
        if intTruthy wait ∧ job.phase ∈ ACTIVE_PHASES then
          let w := clampWait cfg (wait.getD 0)
          let deadline := env.now + w
          let baseline := wait_phase.getD job.phase
          let notDone : Job P → Bool := fun j =>
            if wait_for_completion then decide (j.phase ∈ ACTIVE_PHASES)
            else decide (j.phase = baseline)
          pollLoop notDone env deadline env.fuel 0 job
        else job
      Except.ok (signResults sign job)

/-- JobService.get_first_result (service.py lines 238-293): wait for
completion under the synchronous timeout, then fail on timeout, on a recorded
job error, or on an absent or empty result list, and otherwise return the URL
of the first result. -/
def JobService.get_first_result {P : Type} (cfg : UWSConfig)
    (sign : String → Option String → String) (store : StoreState P)
    (user : String) (job_id : String) (env : GetEnv P) : Except Err String :=
  match JobService.get cfg sign store user job_id (some cfg.sync_timeout)
      none true env with
  | Except.error e => Except.error e
  | Except.ok job =>
    if job.phase ∉ [ExecutionPhase.COMPLETED, ExecutionPhase.ERROR] then
      Except.error (Err.syncTimeout
        ("Cutout did not complete in " ++ toString cfg.sync_timeout ++ "s"))
    else
      match job.error with
      | some e => Except.error (Err.taskError e.error_code e.message e.detail)
      | none =>
        match job.results with
        | some (r :: _) => Except.ok r.url
        | _ =>
          Except.error
            (Err.taskError "no_results" "Job did not return any results" none)

/-- JobService.delete (service.py lines 122-137): ownership check, then a
hard delete of the row. -/
def JobService.delete {P : Type} (store : StoreState P) (user : String)
    (job_id : String) : Except Err Unit × List Effect :=
  match storeGet store job_id with
  | Except.error e => (Except.error e, [])
  | Except.ok job =>
    if job.owner ≠ user then
      (Except.error
        (Err.permissionDenied ("Access to job " ++ job_id ++ " denied")), [])
    else (Except.ok (), [Effect.deleted job_id])

/-- JobService.update (service.py lines 326-358): ownership check, then for
each truthy field of the patch, clamp through the policy validator and issue
the single-field store update only when the clamped value differs from the
stored value.  The validators are the policy hook, passed as functions. -/
def JobService.update {P : Type}
    (validate_destruction : Int → Job P → Int)
    (validate_execution_duration : Int → Job P → Int)
    (store : StoreState P) (user : String) (job_id : String)
    (upd : JobUpdate) : Except Err Unit × List Effect :=
  match storeGet store job_id with
  | Except.error e => (Except.error e, [])
  | Except.ok job =>
    if job.owner ≠ user then
      (Except.error
        (Err.permissionDenied ("Access to job " ++ job_id ++ " denied")), [])
    else
      let destructionEffs :=
        if timeTruthy upd.destruction_time then
          let destruction :=
            validate_destruction (upd.destruction_time.getD 0) job
          if some destruction ≠ job.destruction_time then
            [Effect.updatedDestruction job_id destruction]
          else []
        else []
      let durationEffs :=
        if durTruthy upd.execution_duration then
          let duration :=
            validate_execution_duration (upd.execution_duration.getD 0) job
          if some duration ≠ job.execution_duration then
            [Effect.updatedExecutionDuration job_id duration]
          else []
        else []
      (Except.ok (), destructionEffs ++ durationEffs)

/-- JobService.start (service.py lines 360-388): ownership check, phase
check, then dispatch through the policy and mark the job queued with the
message id of the returned message.  The error message string of the source
literally contains the text between braces (the f-string prefix is missing in
the source). -/
def JobService.start {P : Type} (dispatch : Job P → Message)
    (store : StoreState P) (user : String) (job_id : String) :
    Except Err Message × List Effect :=
  match storeGet store job_id with
  | Except.error e => (Except.error e, [])
  | Except.ok job =>
    if job.owner ≠ user then
      (Except.error
        (Err.permissionDenied ("Access to job " ++ job_id ++ " denied")), [])
    else if job.phase ∉ [ExecutionPhase.PENDING, ExecutionPhase.HELD] then
      (Except.error
        (Err.invalidPhase "Cannot start job in phase \x7bjob.phase\x7d"), [])
    else
      let message := dispatch job
      (Except.ok message,
        [Effect.dispatched job_id,
         Effect.markedQueued job_id message.message_id])

/-! ## Deployed policy (policy.py, class ImageCutoutPolicy) -/

/-- The work-queue submission built by `actor.send_with_options` as invoked
by ImageCutoutPolicy.dispatch: the positional arguments and the `time_limit`
option in milliseconds (`none` leaves the queue's default time limit in
place).  The success and failure callback hooks carry no data relevant here. -/
structure Submission (P : Type) where
  args : String × P
  time_limit : Option Int
deriving DecidableEq, Repr

/-- ImageCutoutPolicy.dispatch (policy.py lines 42-68): the time limit is the
execution duration converted to milliseconds when that duration is truthy
(present and nonzero), and is left unset otherwise. -/
def ImageCutoutPolicy.dispatch {P : Type} (job : Job P) : Submission P :=
  let duration : Option Int :=
    if durTruthy job.execution_duration then
      some (job.execution_duration.getD 0 * 1000)
    else none
  { args := (job.job_id, job.parameters), time_limit := duration }

/-- ImageCutoutPolicy.validate_destruction (policy.py lines 70-73): returns
the stored destruction time when one is set (a datetime is always truthy),
and the requested one otherwise. -/
def ImageCutoutPolicy.validate_destruction {P : Type} (destruction : Int)
    (job : Job P) : Int :=
  match job.destruction_time with
  | some t => t
  | none => destruction

/-- ImageCutoutPolicy.validate_execution_duration (policy.py lines 75-81):
returns the stored duration when it is truthy (present and nonzero), and the
requested one otherwise. -/
def ImageCutoutPolicy.validate_execution_duration {P : Type}
    (execution_duration : Int) (job : Job P) : Int :=
  if durTruthy job.execution_duration then job.execution_duration.getD 0
  else execution_duration

/-! ## Update validation (uws/models.py, JobUpdate) -/

/-- The Pydantic validator on JobUpdate.execution_duration (models.py lines
367-373): a provided duration that is not strictly positive raises a
ValueError; anything else is returned unchanged.  Run at validation time on
every provided value. -/
def JobUpdate.validate_execution_duration (v : Option Int) :
    Except String (Option Int) :=
  match v with
  | some d =>
    if d ≤ 0 then Except.error "execution_duration must be at least 1s"
    else Except.ok (some d)
  | none => Except.ok none

/-! ## Failure envelope decoding (uws/exceptions.py, TaskError.from_callback) -/

/-- A JSON value as produced by `json.loads` (numbers are restricted to
integers, which suffices for the payloads at hand). -/
inductive Json where
  | null
  | bool (b : Bool)
  | num (n : Int)
  | str (s : String)
  | arr (elements : List Json)
  | obj (fields : List (String × Json))

/-- Python subscription `value[key]` on a decoded JSON value: succeeds (with
the raw value, Python `None` for JSON null) exactly when the value is an
object with that key; any other case raises (TypeError/KeyError), modelled as
`none`.  Objects decoded from JSON have unique keys. -/
def Json.getKey : Json → String → Option Json
  | Json.obj fields, key => fields.lookup key
  | _, _ => none

/-- Python `value.get(key)` on a decoded JSON object: `None` when the key is
absent or its value is JSON null, the value otherwise.  Only reached in
`from_callback` after a successful subscription, so the value is an object. -/
def Json.pyGet : Json → String → Option Json
  | Json.obj fields, key =>
    match fields.lookup key with
    | some Json.null => none
    | v => v
  | _, _ => none

/-- The reconstituted error produced by TaskError.from_callback.  Python is
dynamically typed, so the code stores whatever values the decoded JSON held;
the fields are therefore JSON values here. -/
structure CallbackError where
  error_code : Json
  message : Json
  detail : Option Json

/-- TaskError.from_callback (uws/exceptions.py lines 143-173).  `json_loads`
stands for the standard-library `json.loads`, passed as a parameter; a parse
failure is `none`.  The `except Exception` of the source catches both a parse
failure and a failed subscription, yielding the unknown-error fallback with
the original message. -/
def TaskError.from_callback (json_loads : String → Option Json)
    (exception : String × String) : CallbackError :=
  let exception_type := exception.1
  let exception_message := exception.2
  if exception_type = "TaskError" then
    match json_loads exception_message with
    | some error =>
      match error.getKey "error_code", error.getKey "message" with
      | some code, some msg =>
        { error_code := code, message := msg, detail := error.pyGet "detail" }
      | _, _ =>
        { error_code := Json.str "unknown_error",
          message := Json.str exception_message, detail := none }
    | none =>
      { error_code := Json.str "unknown_error",
        message := Json.str exception_message, detail := none }
  else
    { error_code := Json.str "unknown_error",
      message := Json.str "Unknown error executing task",
      detail := some (Json.str (exception_type ++ ": " ++ exception_message)) }

/-! ## ISO date utilities (uws/utils.py)

A Python `datetime` is modelled structurally.  The timezone is `none` for a
naive datetime and `some offsetMinutes` for an aware one; `timezone.utc`
compares equal to exactly the aware timezones of offset zero, which is how the
membership test of the source's assert behaves. -/

/-- A Python datetime value. -/
structure PyDatetime where
  year : Nat
  month : Nat
  day : Nat
  hour : Nat
  minute : Nat
  second : Nat
  microsecond : Nat
  tz : Option Int
deriving DecidableEq, Repr

/-- Gregorian leap-year rule, as used by `datetime`. -/
def isLeapYear (y : Nat) : Bool :=
  y % 4 = 0 && (y % 100 ≠ 0 || y % 400 = 0)

/-- Number of days in a month, as validated by `datetime`. -/
def daysInMonth (y m : Nat) : Nat :=
  if m = 2 then (if isLeapYear y then 29 else 28)
  else if m = 4 ∨ m = 6 ∨ m = 9 ∨ m = 11 then 30
  else 31

/-- The field ranges every constructed Python `datetime` satisfies. -/
def PyDatetime.valid (t : PyDatetime) : Prop :=
  1 ≤ t.year ∧ t.year ≤ 9999 ∧ 1 ≤ t.month ∧ t.month ≤ 12 ∧
  1 ≤ t.day ∧ t.day ≤ daysInMonth t.year t.month ∧
  t.hour ≤ 23 ∧ t.minute ≤ 59 ∧ t.second ≤ 59 ∧ t.microsecond ≤ 999999

instance (t : PyDatetime) : Decidable t.valid := by
  unfold PyDatetime.valid
  infer_instance

/-- The character for a decimal digit. -/
def digitChar (d : Nat) : Char := Char.ofNat (48 + d)

/-- Zero-padded two-digit decimal rendering (strftime %m, %d, %H, %M, %S on
the bounded fields of a valid datetime). -/
def pad2 (n : Nat) : List Char := [digitChar (n / 10), digitChar (n % 10)]

/-- Zero-padded four-digit decimal rendering (strftime %Y on a datetime
year, which is at most 9999). -/
def pad4 (n : Nat) : List Char :=
  [digitChar (n / 1000), digitChar (n / 100 % 10),
   digitChar (n / 10 % 10), digitChar (n % 10)]

/-- The characters of strftime "%Y-%m-%dT%H:%M:%S" applied to a datetime:
zero-padded fields joined by the literal separators.  Sub-second precision
and the timezone are dropped by this format. -/
def isoChars (t : PyDatetime) : List Char :=
  pad4 t.year ++ '-' :: pad2 t.month ++ '-' :: pad2 t.day ++
    'T' :: pad2 t.hour ++ ':' :: pad2 t.minute ++ ':' :: pad2 t.second

/-- isodatetime (uws/utils.py lines 8-11): assert that the timezone is `None`
or equal to `timezone.utc`, then format with strftime "%Y-%m-%dT%H:%M:%SZ".
A failed assert raises, modelled as `none`. -/
def isodatetime (t : PyDatetime) : Option String :=
  if t.tz = none ∨ t.tz = some 0 then
    some (String.mk (isoChars t ++ ['Z']))
  else none

/-- Reads one decimal digit. -/
def readDigit (c : Char) : Option Nat :=
  if c.isDigit then some (c.toNat - 48) else none

/-- Reads a two-digit decimal number. -/
def read2 : List Char → Option (Nat × List Char)
  | a :: b :: rest => do
    let x ← readDigit a
    let y ← readDigit b
    pure (10 * x + y, rest)
  | _ => none

/-- Reads a four-digit decimal number. -/
def read4 : List Char → Option (Nat × List Char)
  | a :: b :: c :: d :: rest => do
    let x ← readDigit a
    let y ← readDigit b
    let z ← readDigit c
    let w ← readDigit d
    pure (1000 * x + 100 * y + 10 * z + w, rest)
  | _ => none

/-- Consumes an expected literal character. -/
def expect (c : Char) : List Char → Option (List Char)
  | x :: rest => if x = c then some rest else none
  | [] => none

/-- Reads "HH:MM" with an optional ":SS". -/
def readHMS : List Char → Option ((Nat × Nat × Nat) × List Char) := fun cs => do
  let (hour, cs) ← read2 cs
  let cs ← expect ':' cs
  let (minute, cs) ← read2 cs
  match cs with
  | ':' :: cs2 => do
    let (second, cs3) ← read2 cs2
    pure ((hour, minute, second), cs3)
  | _ => pure ((hour, minute, 0), cs)

/-- Reads an optional trailing UTC offset "±HH:MM" into minutes; an empty
remainder is a naive datetime. -/
def readOffset : List Char → Option (Option Int)
  | [] => some none
  | c :: rest =>
    if c = '+' ∨ c = '-' then do
      let (hh, rest) ← read2 rest
      let rest ← expect ':' rest
      let (mm, rest) ← read2 rest
      match rest with
      | [] =>
        if hh ≤ 23 ∧ mm ≤ 59 then
          some (some (if c = '-' then -(hh * 60 + mm : Int) else hh * 60 + mm))
        else none
      | _ => none
    else none

/-- datetime.fromisoformat, on the forms relevant here: a full date, an
optional time introduced by one separator character, and an optional UTC
offset.  Field values outside the datetime ranges raise ValueError, modelled
as `none`.  The fractional-second and abbreviated forms the Python function
also accepts never arise in this development. -/
def fromisoformat (s : String) : Option PyDatetime := do
  let cs := s.data
  let (year, cs) ← read4 cs
  let cs ← expect '-' cs
  let (month, cs) ← read2 cs
  let cs ← expect '-' cs
  let (day, cs) ← read2 cs
  let (hour, minute, second, tz) ←
    match cs with
    | [] => some (0, 0, 0, (none : Option Int))
    | _sep :: cs => do
      let (hms, cs) ← readHMS cs
      let tz ← readOffset cs
      some (hms.1, hms.2.1, hms.2.2, tz)
  let t : PyDatetime :=
    ⟨year, month, day, hour, minute, second, 0, tz⟩
  if t.valid then some t else none

/-- Python `s.endswith("Z")`. -/
def strEndsWithZ (s : String) : Bool := s.data.getLast? = some 'Z'

/-- Python `s[:-1]`. -/
def strDropLastChar (s : String) : String := String.mk s.data.dropLast

/-- parse_isodatetime (uws/utils.py lines 14-28): require a trailing "Z",
replace it by "+00:00" and parse with `datetime.fromisoformat`; any parse
failure yields `None`. -/
def parse_isodatetime (time_string : String) : Option PyDatetime :=
  if strEndsWithZ time_string then
    fromisoformat (strDropLastChar time_string ++ "+00:00")
  else none

/-! ## Concrete sample values used by the closed evaluations below -/

/-- Recognizer for the dispatch effect, used to count policy dispatches. -/
def Effect.isDispatch : Effect → Bool
  | Effect.dispatched _ => true
  | _ => false

/-- A sample pending job owned by user "u", with a destruction time set and a
zero execution duration (a value the Job model admits: only the JobUpdate
validator constrains durations). -/
def sampleJob : Job Unit := {
  job_id := "1"
  owner := "u"
  phase := ExecutionPhase.PENDING
  run_id := none
  creation_time := 0
  message_id := none
  start_time := none
  end_time := none
  destruction_time := some 100
  execution_duration := some 0
  quote := none
  error := none
  parameters := ()
  results := none }

/-- A sample completed job with one result. -/
def sampleDoneJob : Job Unit := {
  job_id := "2"
  owner := "u"
  phase := ExecutionPhase.COMPLETED
  run_id := none
  creation_time := 0
  message_id := some "m2"
  start_time := some 1
  end_time := some 2
  destruction_time := some 100
  execution_duration := some 600
  quote := none
  error := none
  parameters := ()
  results := some [⟨"cutout", "s3://bucket/p", none, some "application/fits"⟩] }

/-- A sample polling environment: the clock starts at 0 and each re-read
observes a later clock; every re-read returns `sampleDoneJob`. -/
def sampleEnv : GetEnv Unit := {
  now := 0
  reread := fun _ => sampleDoneJob
  readTime := fun i => (i : Int) + 1
  fuel := 10 }

/-- A sample configuration. -/
def sampleConfig : UWSConfig := {
  execution_duration := 600
  lifetime := 86400
  wait_timeout := 60
  sync_timeout := 60 }

/-- A sample signed-URL minter that tags the URL. -/
def sampleSign (url : String) (_mime : Option String) : String :=
  "signed:" ++ url

/-! ## Theorems -/

/-- C6: every JobUpdate whose execution_duration is zero seconds is rejected
by the validator with an error at validation time, and likewise for every
negative execution_duration. -/
theorem C6_update_validation_rejects_nonpositive_duration (d : Int)
    (h : d ≤ 0) :
    JobUpdate.validate_execution_duration (some d) =
      Except.error "execution_duration must be at least 1s" := by
  simp [JobUpdate.validate_execution_duration, h]

/-- Witness for C6 at the concrete durations 0 and -5. -/
theorem C6_witness :
    ((0 : Int) ≤ 0 ∧
      JobUpdate.validate_execution_duration (some 0) =
        Except.error "execution_duration must be at least 1s") ∧
    ((-5 : Int) ≤ 0 ∧
      JobUpdate.validate_execution_duration (some (-5)) =
        Except.error "execution_duration must be at least 1s") :=
  ⟨⟨le_refl 0, C6_update_validation_rejects_nonpositive_duration 0 (le_refl 0)⟩,
   ⟨by norm_num,
    C6_update_validation_rejects_nonpositive_duration (-5) (by norm_num)⟩⟩

/-- C9 counterexample: a job whose execution_duration is present but equal to
zero seconds is dispatched with no explicit time limit, not with a limit of
zero milliseconds, so the dispatch rule as claimed fails for it. -/
theorem C9_counterexample :
    sampleJob.execution_duration = some 0 ∧
    (ImageCutoutPolicy.dispatch sampleJob).time_limit = none :=
  ⟨rfl, rfl⟩

/-- C9 (amended): the dispatcher submits with a time limit of
execution_duration seconds times 1000 milliseconds when the execution
duration is present and nonzero, and submits with no explicit time limit when
it is absent or zero. -/
theorem C9_dispatch_time_limit {P : Type} (job : Job P) :
    (∀ d : Int, job.execution_duration = some d → d ≠ 0 →
      (ImageCutoutPolicy.dispatch job).time_limit = some (d * 1000)) ∧
    (job.execution_duration = none ∨ job.execution_duration = some 0 →
      (ImageCutoutPolicy.dispatch job).time_limit = none) := by
  constructor
  · intro d hd hdz
    simp [ImageCutoutPolicy.dispatch, durTruthy, hd, hdz]
  · rintro (h | h) <;> simp [ImageCutoutPolicy.dispatch, durTruthy, h]

/-- Witness for C9 at a job with a 7-second duration and a job with no
duration. -/
theorem C9_witness :
    (({ sampleJob with execution_duration := some 7 } :
        Job Unit).execution_duration = some 7 ∧
      (7 : Int) ≠ 0 ∧
      (ImageCutoutPolicy.dispatch
        ({ sampleJob with execution_duration := some 7 } :
          Job Unit)).time_limit = some (7 * 1000)) ∧
    (({ sampleJob with execution_duration := none } :
        Job Unit).execution_duration = none ∧
      (ImageCutoutPolicy.dispatch
        ({ sampleJob with execution_duration := none } :
          Job Unit)).time_limit = none) :=
  ⟨⟨rfl, by norm_num,
    (C9_dispatch_time_limit _).1 7 rfl (by norm_num)⟩,
   ⟨rfl, (C9_dispatch_time_limit _).2 (Or.inl rfl)⟩⟩

/-- C3: starting an owned job whose phase is neither PENDING nor HELD raises
InvalidPhaseError with no dispatch and no store mutation; otherwise the job
is dispatched exactly once, marked queued with the message id of the message
the dispatch returned, and that message is returned. -/
theorem C3_start_dispatch {P : Type} (dispatch : Job P → Message)
    (store : StoreState P) (user job_id : String) (job : Job P)
    (hget : storeGet store job_id = Except.ok job)
    (howner : job.owner = user) :
    (job.phase ∉ [ExecutionPhase.PENDING, ExecutionPhase.HELD] →
      JobService.start dispatch store user job_id =
        (Except.error
          (Err.invalidPhase "Cannot start job in phase \x7bjob.phase\x7d"),
         [])) ∧
    (job.phase ∈ [ExecutionPhase.PENDING, ExecutionPhase.HELD] →
      JobService.start dispatch store user job_id =
        (Except.ok (dispatch job),
         [Effect.dispatched job_id,
          Effect.markedQueued job_id (dispatch job).message_id]) ∧
      (JobService.start dispatch store user job_id).2.countP
        Effect.isDispatch = 1) := by
  constructor
  · intro hphase
    simp [JobService.start, hget, howner, hphase]
  · intro hphase
    constructor
    · simp [JobService.start, hget, howner, hphase]
    · simp [JobService.start, hget, howner, hphase, Effect.isDispatch]

/-- Witness for C3: a pending job starts and dispatches once; an executing
job is rejected. -/
theorem C3_witness :
    (storeGet [("1", sampleJob)] "1" = Except.ok sampleJob ∧
      sampleJob.owner = "u" ∧
      sampleJob.phase ∈ [ExecutionPhase.PENDING, ExecutionPhase.HELD] ∧
      JobService.start (fun _ => ⟨"mid"⟩) [("1", sampleJob)] "u" "1" =
        (Except.ok ⟨"mid"⟩,
         [Effect.dispatched "1", Effect.markedQueued "1" "mid"])) ∧
    (storeGet [("3", { sampleJob with phase := ExecutionPhase.EXECUTING })]
        "3" = Except.ok { sampleJob with phase := ExecutionPhase.EXECUTING } ∧
      ({ sampleJob with phase := ExecutionPhase.EXECUTING } :
        Job Unit).phase ∉ [ExecutionPhase.PENDING, ExecutionPhase.HELD] ∧
      JobService.start (fun _ => ⟨"mid"⟩)
        [("3", { sampleJob with phase := ExecutionPhase.EXECUTING })] "u" "3" =
        (Except.error
          (Err.invalidPhase "Cannot start job in phase \x7bjob.phase\x7d"),
         [])) :=
  ⟨⟨rfl, rfl, by decide,
    ((C3_start_dispatch (fun _ => ⟨"mid"⟩) [("1", sampleJob)] "u" "1"
      sampleJob rfl rfl).2 (by decide)).1⟩,
   ⟨rfl, by decide,
    (C3_start_dispatch (fun _ => ⟨"mid"⟩)
      [("3", { sampleJob with phase := ExecutionPhase.EXECUTING })] "u" "3"
      { sampleJob with phase := ExecutionPhase.EXECUTING } rfl rfl).1
      (by decide)⟩⟩

/-- C2: every operation among get, delete, update, and start invoked by a
user other than the stored owner of an existing job fails with
PermissionDeniedError, issues no store mutation and no dispatch, and leaves
the stored state unchanged. -/
theorem C2_permission_denied {P : Type} (cfg : UWSConfig)
    (sign : String → Option String → String) (env : GetEnv P)
    (wait : Option Int) (wait_phase : Option ExecutionPhase) (wfc : Bool)
    (dispatch : Job P → Message) (vd ved : Int → Job P → Int)
    (upd : JobUpdate) (store : StoreState P) (user job_id : String)
    (job : Job P) (hget : storeGet store job_id = Except.ok job)
    (howner : job.owner ≠ user) :
    JobService.get cfg sign store user job_id wait wait_phase wfc env =
      Except.error
        (Err.permissionDenied ("Access to job " ++ job_id ++ " denied")) ∧
    JobService.delete store user job_id =
      (Except.error
        (Err.permissionDenied ("Access to job " ++ job_id ++ " denied")),
       []) ∧
    JobService.update vd ved store user job_id upd =
      (Except.error
        (Err.permissionDenied ("Access to job " ++ job_id ++ " denied")),
       []) ∧
    JobService.start dispatch store user job_id =
      (Except.error
        (Err.permissionDenied ("Access to job " ++ job_id ++ " denied")),
       []) ∧
    applyEffects store (JobService.delete store user job_id).2 = store ∧
    applyEffects store
      (JobService.update vd ved store user job_id upd).2 = store ∧
    applyEffects store (JobService.start dispatch store user job_id).2 =
      store := by
  refine ⟨?_, ?_, ?_, ?_, ?_, ?_, ?_⟩ <;>
    simp [JobService.get, JobService.delete, JobService.update,
      JobService.start, hget, howner, applyEffects]

/-- Witness for C2: user "v" probing job "1" owned by "u". -/
theorem C2_witness :
    (storeGet [("1", sampleJob)] "1" = Except.ok sampleJob ∧
      sampleJob.owner ≠ "v") ∧
    JobService.get sampleConfig sampleSign [("1", sampleJob)] "v" "1"
      (some 5) none false sampleEnv =
      Except.error (Err.permissionDenied "Access to job 1 denied") ∧
    JobService.delete [("1", sampleJob)] "v" "1" =
      (Except.error (Err.permissionDenied "Access to job 1 denied"), []) ∧
    JobService.start (fun _ => ⟨"mid"⟩) [("1", sampleJob)] "v" "1" =
      (Except.error (Err.permissionDenied "Access to job 1 denied"), []) ∧
    applyEffects [("1", sampleJob)]
      (JobService.delete [("1", sampleJob)] "v" "1").2 = [("1", sampleJob)] := by
  have h := C2_permission_denied sampleConfig sampleSign sampleEnv (some 5)
    none false (fun _ => ⟨"mid"⟩) (fun d _ => d) (fun d _ => d) ⟨none, none⟩
    [("1", sampleJob)] "v" "1" sampleJob rfl (by decide)
  exact ⟨⟨rfl, by decide⟩, h.1, h.2.1, h.2.2.2.1, h.2.2.2.2.1⟩

/-- C10 counterexample: under the deployed policy, an owned job with a
destruction time set and an execution duration set (to zero seconds, a value
the Job model admits) is mutated by an update patching the duration, because
the policy's truthiness test does not protect a zero stored duration. -/
theorem C10_counterexample :
    storeGet [("1", sampleJob)] "1" = Except.ok sampleJob ∧
    sampleJob.owner = "u" ∧
    sampleJob.destruction_time = some 100 ∧
    sampleJob.execution_duration = some 0 ∧
    (JobService.update ImageCutoutPolicy.validate_destruction
      ImageCutoutPolicy.validate_execution_duration
      [("1", sampleJob)] "u" "1" ⟨none, some 5⟩).2 =
      [Effect.updatedExecutionDuration "1" 5] :=
  ⟨rfl, rfl, rfl, rfl, rfl⟩

/-- C10 (amended): under the deployed ImageCutoutPolicy, an owned job whose
destruction_time is set and whose execution_duration is set to a nonzero
value is never mutated by update, for any patch: the validators return the
stored values and the service issues a single-field store update only when
the clamped value differs from the stored one. -/
theorem C10_update_frame {P : Type} (store : StoreState P)
    (user job_id : String) (job : Job P) (upd : JobUpdate) (dt e : Int)
    (hget : storeGet store job_id = Except.ok job) (howner : job.owner = user)
    (hdt : job.destruction_time = some dt)
    (he : job.execution_duration = some e) (hez : e ≠ 0) :
    JobService.update ImageCutoutPolicy.validate_destruction
      ImageCutoutPolicy.validate_execution_duration store user job_id upd =
      (Except.ok (), []) ∧
    applyEffects store
      (JobService.update ImageCutoutPolicy.validate_destruction
        ImageCutoutPolicy.validate_execution_duration store user job_id
        upd).2 = store := by
  have hupdate : JobService.update ImageCutoutPolicy.validate_destruction
      ImageCutoutPolicy.validate_execution_duration store user job_id upd =
      (Except.ok (), []) := by
    simp only [JobService.update, hget]
    simp [howner, ImageCutoutPolicy.validate_destruction,
      ImageCutoutPolicy.validate_execution_duration, hdt, he, hez, durTruthy]
  exact ⟨hupdate, by simp [hupdate, applyEffects]⟩

/-- Witness for C10 at a job with duration 600 and a patch requesting both
fields changed. -/
theorem C10_witness :
    storeGet [("2", sampleDoneJob)] "2" = Except.ok sampleDoneJob ∧
    sampleDoneJob.owner = "u" ∧
    sampleDoneJob.destruction_time = some 100 ∧
    sampleDoneJob.execution_duration = some 600 ∧
    JobService.update ImageCutoutPolicy.validate_destruction
      ImageCutoutPolicy.validate_execution_duration
      [("2", sampleDoneJob)] "u" "2" ⟨some 5000, some 30⟩ =
      (Except.ok (), []) ∧
    applyEffects [("2", sampleDoneJob)]
      (JobService.update ImageCutoutPolicy.validate_destruction
        ImageCutoutPolicy.validate_execution_duration
        [("2", sampleDoneJob)] "u" "2" ⟨some 5000, some 30⟩).2 =
      [("2", sampleDoneJob)] := by
  have h := C10_update_frame [("2", sampleDoneJob)] "u" "2" sampleDoneJob
    ⟨some 5000, some 30⟩ 100 600 rfl rfl rfl rfl (by norm_num)
  exact ⟨rfl, rfl, rfl, rfl, h.1, h.2⟩

/-- C4: TaskError.from_callback yields the parsed error_code, message and
optional detail when the type is "TaskError" and the message parses as a JSON
object holding error_code and message; the unknown_error fallback with the
original message when the type is "TaskError" but the message does not parse
that way; and the unknown_error fallback with the fixed message and the
"type: message" detail for any other type. -/
theorem C4_from_callback (json_loads : String → Option Json)
    (etype emsg : String) :
    (∀ e code msg, etype = "TaskError" → json_loads emsg = some e →
      e.getKey "error_code" = some code → e.getKey "message" = some msg →
      TaskError.from_callback json_loads (etype, emsg) =
        ⟨code, msg, e.pyGet "detail"⟩) ∧
    (etype = "TaskError" → json_loads emsg = none →
      TaskError.from_callback json_loads (etype, emsg) =
        ⟨Json.str "unknown_error", Json.str emsg, none⟩) ∧
    (∀ e, etype = "TaskError" → json_loads emsg = some e →
      (e.getKey "error_code" = none ∨ e.getKey "message" = none) →
      TaskError.from_callback json_loads (etype, emsg) =
        ⟨Json.str "unknown_error", Json.str emsg, none⟩) ∧
    (etype ≠ "TaskError" →
      TaskError.from_callback json_loads (etype, emsg) =
        ⟨Json.str "unknown_error", Json.str "Unknown error executing task",
         some (Json.str (etype ++ ": " ++ emsg))⟩) := by
  refine ⟨?_, ?_, ?_, ?_⟩
  · intro e code msg ht hl hc hm
    simp [TaskError.from_callback, ht, hl, hc, hm]
  · intro ht hl
    simp [TaskError.from_callback, ht, hl]
  · rintro e ht hl (hc | hm)
    · simp [TaskError.from_callback, ht, hl, hc]
    · cases hcode : e.getKey "error_code" <;>
        simp [TaskError.from_callback, ht, hl, hcode, hm]
  · intro ht
    simp [TaskError.from_callback, ht]

/-- Witness for C4: a loader recognizing one structured payload, exercised on
the structured case, the unparsable case, and the foreign-type case. -/
theorem C4_witness :
    (("TaskError" : String) = "TaskError" ∧
      TaskError.from_callback
        (fun s => if s = "p" then
          some (Json.obj [("error_code", Json.str "usage_error"),
            ("message", Json.str "Something failed")]) else none)
        ("TaskError", "p") =
        ⟨Json.str "usage_error", Json.str "Something failed", none⟩) ∧
    (TaskError.from_callback
        (fun s => if s = "p" then
          some (Json.obj [("error_code", Json.str "usage_error"),
            ("message", Json.str "Something failed")]) else none)
        ("TaskError", "garbage") =
        ⟨Json.str "unknown_error", Json.str "garbage", none⟩) ∧
    (("ValueError" : String) ≠ "TaskError" ∧
      TaskError.from_callback
        (fun s => if s = "p" then
          some (Json.obj [("error_code", Json.str "usage_error"),
            ("message", Json.str "Something failed")]) else none)
        ("ValueError", "Unknown exception") =
        ⟨Json.str "unknown_error", Json.str "Unknown error executing task",
         some (Json.str "ValueError: Unknown exception")⟩) := by
  refine ⟨⟨rfl, ?_⟩, ?_, by decide, ?_⟩
  · exact (C4_from_callback _ "TaskError" "p").1
      (Json.obj [("error_code", Json.str "usage_error"),
        ("message", Json.str "Something failed")])
      (Json.str "usage_error") (Json.str "Something failed") rfl (by simp)
      rfl rfl
  · exact (C4_from_callback _ "TaskError" "garbage").2.1 rfl (by simp)
  · exact (C4_from_callback _ "ValueError" "Unknown exception").2.2.2
      (by simp)

/-- C1: get_first_result consults get with the synchronous timeout and
wait-for-completion set; relative to the job that call returns, it raises
SyncTimeoutError when the phase is neither COMPLETED nor ERROR, raises
TaskError with exactly the recorded error's fields when an error is present,
raises TaskError "no_results" when the result list is absent or empty, and
otherwise returns the URL of the first result; an error of the get call
itself propagates. -/
theorem C1_get_first_result {P : Type} (cfg : UWSConfig)
    (sign : String → Option String → String) (store : StoreState P)
    (user job_id : String) (env : GetEnv P) :
    (∀ e, JobService.get cfg sign store user job_id (some cfg.sync_timeout)
        none true env = Except.error e →
      JobService.get_first_result cfg sign store user job_id env =
        Except.error e) ∧
    (∀ job : Job P, JobService.get cfg sign store user job_id
        (some cfg.sync_timeout) none true env = Except.ok job →
      (job.phase ∉ [ExecutionPhase.COMPLETED, ExecutionPhase.ERROR] →
        JobService.get_first_result cfg sign store user job_id env =
          Except.error (Err.syncTimeout
            ("Cutout did not complete in " ++ toString cfg.sync_timeout ++
              "s"))) ∧
      (∀ e, job.phase ∈ [ExecutionPhase.COMPLETED, ExecutionPhase.ERROR] →
        job.error = some e →
        JobService.get_first_result cfg sign store user job_id env =
          Except.error (Err.taskError e.error_code e.message e.detail)) ∧
      (job.phase ∈ [ExecutionPhase.COMPLETED, ExecutionPhase.ERROR] →
        job.error = none → (job.results = none ∨ job.results = some []) →
        JobService.get_first_result cfg sign store user job_id env =
          Except.error (Err.taskError "no_results"
            "Job did not return any results" none)) ∧
      (∀ r rs, job.phase ∈ [ExecutionPhase.COMPLETED, ExecutionPhase.ERROR] →
        job.error = none → job.results = some (r :: rs) →
        JobService.get_first_result cfg sign store user job_id env =
          Except.ok r.url)) := by
  constructor
  · intro e hget
    simp [JobService.get_first_result, hget]
  · intro job hget
    refine ⟨?_, ?_, ?_, ?_⟩
    · intro hphase
      simp [JobService.get_first_result, hget, hphase]
    · intro e hphase herr
      simp [JobService.get_first_result, hget, hphase, herr]
    · rintro hphase herr (hres | hres) <;>
        simp [JobService.get_first_result, hget, hphase, herr, hres]
    · intro r rs hphase herr hres
      simp [JobService.get_first_result, hget, hphase, herr, hres]

/-- Witness for C1: the sample pending job completes during the poll and the
signed URL of its first result is returned. -/
theorem C1_witness :
    JobService.get sampleConfig sampleSign [("1", sampleJob)] "u" "1"
      (some sampleConfig.sync_timeout) none true sampleEnv =
      Except.ok (signResults sampleSign sampleDoneJob) ∧
    (signResults sampleSign sampleDoneJob).phase ∈
      [ExecutionPhase.COMPLETED, ExecutionPhase.ERROR] ∧
    (signResults sampleSign sampleDoneJob).error = none ∧
    (signResults sampleSign sampleDoneJob).results =
      some [⟨"cutout", "signed:s3://bucket/p", none, some "application/fits"⟩] ∧
    JobService.get_first_result sampleConfig sampleSign [("1", sampleJob)]
      "u" "1" sampleEnv = Except.ok "signed:s3://bucket/p" := by
  refine ⟨rfl, by decide, by decide, rfl, ?_⟩
  exact ((C1_get_first_result sampleConfig sampleSign [("1", sampleJob)]
    "u" "1" sampleEnv).2 (signResults sampleSign sampleDoneJob)
    rfl).2.2.2
    ⟨"cutout", "signed:s3://bucket/p", none, some "application/fits"⟩ []
    (by decide) (by decide) (by decide)

/-- C5: get long-polls only when wait is given and nonzero and the current
phase is PENDING, QUEUED or EXECUTING; with wait absent or zero the current
snapshot is returned immediately, independent of the polling environment;
and a wait below zero or above config.wait_timeout is replaced by exactly
config.wait_timeout before the deadline is computed. -/
theorem C5_get_long_polling {P : Type} (cfg : UWSConfig)
    (sign : String → Option String → String) (store : StoreState P)
    (user job_id : String) :
    (∀ (wait : Option Int) (wp : Option ExecutionPhase) (wfc : Bool)
        (env env' : GetEnv P), wait = none ∨ wait = some 0 →
      JobService.get cfg sign store user job_id wait wp wfc env =
        JobService.get cfg sign store user job_id wait wp wfc env' ∧
      JobService.get cfg sign store user job_id wait wp wfc env =
        (match storeGet store job_id with
         | Except.error e => Except.error e
         | Except.ok job =>
           if job.owner ≠ user then
             Except.error (Err.permissionDenied
               ("Access to job " ++ job_id ++ " denied"))
           else Except.ok (signResults sign job))) ∧
    (∀ (wait : Option Int) (wp : Option ExecutionPhase) (wfc : Bool)
        (env : GetEnv P) (job : Job P),
      storeGet store job_id = Except.ok job → job.owner = user →
      job.phase ∉ ACTIVE_PHASES →
      JobService.get cfg sign store user job_id wait wp wfc env =
        Except.ok (signResults sign job)) ∧
    (∀ (w : Int) (wp : Option ExecutionPhase) (wfc : Bool) (env : GetEnv P)
        (job : Job P),
      storeGet store job_id = Except.ok job → job.owner = user →
      job.phase ∈ ACTIVE_PHASES → w ≠ 0 → (w < 0 ∨ w > cfg.wait_timeout) →
      clampWait cfg w = cfg.wait_timeout ∧
      JobService.get cfg sign store user job_id (some w) wp wfc env =
        Except.ok (signResults sign (pollLoop
          (fun j => if wfc then decide (j.phase ∈ ACTIVE_PHASES)
            else decide (j.phase = wp.getD job.phase))
          env (env.now + cfg.wait_timeout) env.fuel 0 job))) := by
  refine ⟨?_, ?_, ?_⟩
  · rintro wait wp wfc env env' (hw | hw) <;>
      subst hw <;>
      constructor <;>
      · unfold JobService.get
        cases storeGet store job_id <;> simp [intTruthy]
  · intro wait wp wfc env job hget howner hphase
    unfold JobService.get
    rw [hget]
    simp [howner, hphase]
  · intro w wp wfc env job hget howner hphase hw hclamp
    have hcl : clampWait cfg w = cfg.wait_timeout := by
      unfold clampWait
      rcases hclamp with h | h <;> simp [h]
    refine ⟨hcl, ?_⟩
    unfold JobService.get
    rw [hget]
    simp only [howner]
    simp [intTruthy, hw, hphase, hcl]

/-- Witness for C5: with wait 0 the pending snapshot comes back untouched by
the environment; a completed job is returned as is under any wait; a wait of
-1 is clamped to the configured maximum of 60. -/
theorem C5_witness :
    (JobService.get sampleConfig sampleSign [("1", sampleJob)] "u" "1"
        (some 0) none false sampleEnv =
      JobService.get sampleConfig sampleSign [("1", sampleJob)] "u" "1"
        (some 0) none false { sampleEnv with fuel := 3 } ∧
      JobService.get sampleConfig sampleSign [("1", sampleJob)] "u" "1"
        (some 0) none false sampleEnv =
        Except.ok (signResults sampleSign sampleJob)) ∧
    (storeGet [("2", sampleDoneJob)] "2" = Except.ok sampleDoneJob ∧
      sampleDoneJob.phase ∉ ACTIVE_PHASES ∧
      JobService.get sampleConfig sampleSign [("2", sampleDoneJob)] "u" "2"
        (some 30) none false sampleEnv =
        Except.ok (signResults sampleSign sampleDoneJob)) ∧
    ((-1 : Int) < 0 ∧ clampWait sampleConfig (-1) = 60 ∧
      JobService.get sampleConfig sampleSign [("1", sampleJob)] "u" "1"
        (some (-1)) none true sampleEnv =
        Except.ok (signResults sampleSign (pollLoop
          (fun j => decide (j.phase ∈ ACTIVE_PHASES))
          sampleEnv (sampleEnv.now + 60) sampleEnv.fuel 0 sampleJob))) := by
  have h0 := (C5_get_long_polling sampleConfig sampleSign [("1", sampleJob)]
    "u" "1").1 (some 0) none false sampleEnv { sampleEnv with fuel := 3 }
    (Or.inr rfl)
  have h1 := (C5_get_long_polling sampleConfig sampleSign [("2", sampleDoneJob)]
    "u" "2").2.1 (some 30) none false sampleEnv sampleDoneJob rfl rfl
    (by decide)
  have h2 := (C5_get_long_polling sampleConfig sampleSign [("1", sampleJob)]
    "u" "1").2.2 (-1) none true sampleEnv sampleJob rfl rfl (by decide)
    (by norm_num) (Or.inl (by norm_num))
  exact ⟨⟨h0.1, h0.2⟩, ⟨rfl, by decide, h1⟩,
    ⟨by norm_num, h2.1, h2.2⟩⟩

/-! ### Round-trip of the ISO date format -/

/-- A decimal digit character reads back as its value. -/
theorem readDigit_digitChar {d : Nat} (h : d < 10) :
    readDigit (digitChar d) = some d := by
  interval_cases d <;> rfl

/-- Two zero-padded digits read back as the number below 100. -/
theorem read2_pad2 (n : Nat) (h : n < 100) (rest : List Char) :
    read2 (pad2 n ++ rest) = some (n, rest) := by
  have h1 : n / 10 < 10 := by omega
  have h2 : n % 10 < 10 := by omega
  simp [pad2, read2, readDigit_digitChar h1, readDigit_digitChar h2]
  omega

/-- Four zero-padded digits read back as the number below 10000. -/
theorem read4_pad4 (n : Nat) (h : n < 10000) (rest : List Char) :
    read4 (pad4 n ++ rest) = some (n, rest) := by
  have h1 : n / 1000 < 10 := by omega
  have h2 : n / 100 % 10 < 10 := by omega
  have h3 : n / 10 % 10 < 10 := by omega
  have h4 : n % 10 < 10 := by omega
  simp [pad4, read4, readDigit_digitChar h1, readDigit_digitChar h2,
    readDigit_digitChar h3, readDigit_digitChar h4]
  omega

/-- The substituted UTC offset suffix parses as offset zero. -/
theorem readOffset_utc :
    readOffset ['+', '0', '0', ':', '0', '0'] = some (some 0) := by
  rfl

/-- Appending the UTC offset suffix at the string level appends its
characters. -/
theorem mk_append_utcoff (l : List Char) :
    String.mk l ++ "+00:00" = String.mk (l ++ ['+', '0', '0', ':', '0', '0']) :=
  rfl

/-- Every month has at most 31 days. -/
theorem daysInMonth_le (y m : Nat) : daysInMonth y m ≤ 31 := by
  unfold daysInMonth
  split
  · split <;> omega
  · split <;> omega

/-- C7: for every valid UTC datetime with whole-second precision, parsing the
formatted timestamp returns exactly the original datetime. -/
theorem C7_isodatetime_roundtrip (t : PyDatetime) (hv : t.valid)
    (hus : t.microsecond = 0) (htz : t.tz = some 0) :
    (isodatetime t).bind parse_isodatetime = some t := by
  obtain ⟨y, mo, d, hr, mi, s, us, tz⟩ := t
  simp only [PyDatetime.valid] at hv
  obtain ⟨hy1, hy2, hmo1, hmo2, hd1, hd2, hhr, hmi, hs, -⟩ := hv
  dsimp only at hus htz
  subst hus
  subst htz
  have hd100 : d < 100 := by
    have := daysInMonth_le y mo
    omega
  have hfmt : isodatetime ⟨y, mo, d, hr, mi, s, 0, some 0⟩ =
      some (String.mk (isoChars ⟨y, mo, d, hr, mi, s, 0, some 0⟩ ++ ['Z'])) := by
    simp [isodatetime]
  rw [hfmt]
  simp only [Option.some_bind]
  rw [parse_isodatetime]
  rw [if_pos]
  swap
  · simp [strEndsWithZ, List.getLast?_concat]
  rw [strDropLastChar]
  simp only [List.dropLast_concat]
  rw [mk_append_utcoff]
  have hdata : (isoChars ⟨y, mo, d, hr, mi, s, 0, some 0⟩ ++
      ['+', '0', '0', ':', '0', '0']) =
      pad4 y ++ '-' :: (pad2 mo ++ '-' :: (pad2 d ++ 'T' :: (pad2 hr ++
        ':' :: (pad2 mi ++ ':' :: (pad2 s ++
          ['+', '0', '0', ':', '0', '0']))))) := by
    simp [isoChars, List.append_assoc]
  rw [fromisoformat]
  simp only [hdata]
  simp [read4_pad4 y (by omega), expect, read2_pad2 mo (by omega),
    read2_pad2 d (by omega), read2_pad2 hr (by omega),
    read2_pad2 mi (by omega), read2_pad2 s (by omega), readHMS,
    readOffset_utc, PyDatetime.valid, hy1, hy2, hmo1, hmo2, hd1, hd2,
    hhr, hmi, hs]

/-- Witness for C7 at the concrete instant 2023-01-13T14:53:07Z. -/
theorem C7_witness :
    (⟨2023, 1, 13, 14, 53, 7, 0, some 0⟩ : PyDatetime).valid ∧
    (⟨2023, 1, 13, 14, 53, 7, 0, some 0⟩ : PyDatetime).microsecond = 0 ∧
    (⟨2023, 1, 13, 14, 53, 7, 0, some 0⟩ : PyDatetime).tz = some 0 ∧
    (isodatetime ⟨2023, 1, 13, 14, 53, 7, 0, some 0⟩).bind parse_isodatetime =
      some ⟨2023, 1, 13, 14, 53, 7, 0, some 0⟩ :=
  ⟨by decide, rfl, rfl, C7_isodatetime_roundtrip _ (by decide) rfl rfl⟩

/-- C8 counterexample: a timezone-naive datetime is not a UTC-aware
timestamp, yet isodatetime accepts it and returns a formatted string rather
than failing, so the function does format a timestamp that is not in UTC. -/
theorem C8_counterexample :
    (⟨1999, 1, 1, 0, 0, 0, 0, none⟩ : PyDatetime).tz = none ∧
    (⟨1999, 1, 1, 0, 0, 0, 0, none⟩ : PyDatetime).tz ≠ some 0 ∧
    isodatetime ⟨1999, 1, 1, 0, 0, 0, 0, none⟩ =
      some "1999-01-01T00:00:00Z" :=
  ⟨rfl, by decide, by decide⟩

/-- C8 (amended): isodatetime rejects every timezone-aware datetime whose
zone is not UTC; timezone-naive datetimes are accepted and formatted as if
they were UTC. -/
theorem C8_isodatetime_rejects_aware_nonutc (t : PyDatetime) (off : Int)
    (htz : t.tz = some off) (hoff : off ≠ 0) :
    isodatetime t = none := by
  simp [isodatetime, htz, hoff]

/-- Witness for C8 at a datetime carrying a +01:00 zone. -/
theorem C8_witness :
    (⟨2023, 1, 1, 0, 0, 0, 0, some 60⟩ : PyDatetime).tz = some 60 ∧
    (60 : Int) ≠ 0 ∧
    isodatetime ⟨2023, 1, 1, 0, 0, 0, 0, some 60⟩ = none :=
  ⟨rfl, by norm_num, C8_isodatetime_rejects_aware_nonutc _ 60 rfl (by norm_num)⟩

end Vocutouts
